import Mathlib

/-!
Verification of the SDL++ wrapper layer (repr-man/SDL-plus-plus).

The repository wraps a native C multimedia library behind RAII-style
objects.  Each wrapper object stores an opaque native handle plus a
boolean ownership flag (Window and Renderer additionally store an `int
error` accumulator).  The native library is external: every native call
is modelled as an oracle, i.e. the values it returns (return codes,
produced handles, queried sizes) are parameters of the wrapper-method
models.  Destructor side effects (the native release calls a destructor
performs) are modelled as explicit lists of `NativeCall`s.

Sources embedded here: src/SDL++/include/surface.hpp,
src/SDL++/include/video.hpp, src/SDL++/src/render.cpp.  The class
declarations of `Renderer` and `Texture` live in render.hpp, which is
not part of the sources; the fields they must declare are pinned by
their uses in render.cpp, and their default initializers are modelled
after the spec and the sibling headers.
-/

namespace SDL

/-- A native handle (an opaque pointer owned by the wrapped library);
`none` models `NULL`. -/
abbrev SDLPtr := Option Nat

/-- An opaque token standing for a C float value.  The wrapper never
performs floating-point arithmetic: float values only pass through
unchanged, so they are modelled as opaque tokens. -/
abbrev Flt := Int

/-- Modelled from the spec: rect.hpp is not under src/; the glossary
names `Point` among the wrapper structs.  Its two int members are read
both as coordinates (`x`/`y`, e.g. DrawLine) and as extents (`w`/`h`,
e.g. GetOutputSize), so `w`/`h` alias `x`/`y`. -/
structure Point where
  x : Int
  y : Int
deriving DecidableEq

def Point.w (p : Point) : Int := p.x

def Point.h (p : Point) : Int := p.y

/-- Modelled from the spec: rect.hpp is not under src/; the glossary
names `FPoint`-style float structs among the wrapper structs. -/
structure FPoint where
  x : Flt
  y : Flt
deriving DecidableEq

/-- Modelled from the spec: rect.hpp is not under src/; `Rect` is a
wrapper rect struct (position plus size).  Its fields are inert for the
claims below (rect arguments are forwarded to the native library
untouched). -/
structure Rect where
  x : Int
  y : Int
  w : Int
  h : Int
deriving DecidableEq

/-- The native release calls a wrapper destructor can perform. -/
inductive NativeCall where
  | freeSurface (p : SDLPtr)
  | destroyWindow (p : SDLPtr)
  | destroyRenderer (p : SDLPtr)
  | destroyTexture (p : SDLPtr)
deriving DecidableEq

/-- Source surface.hpp lines 19-21: `SDL_Surface* surface = NULL; bool
freeSurface = false;`. -/
structure Surface where
  surface : SDLPtr := none
  freeSurface : Bool := false
deriving DecidableEq

/-- Source video.hpp lines 169-172: `SDL_Window* window = NULL; bool
freeWindow = false; int error;`.  Note `error` has no initializer in the
source, so constructors leave it indeterminate. -/
structure Window where
  window : SDLPtr := none
  freeWindow : Bool := false
  error : Int
deriving DecidableEq

/-- Modelled from the spec: the `Renderer` class declaration lives in
render.hpp, which is not under src/.  The fields are pinned by their
uses in src/render.cpp (`renderer`, `freeRenderer`, `error`); the
defaults follow the sibling headers (handle `= NULL`, flag `= false`)
per the spec's uniform ownership-flag scheme. -/
structure Renderer where
  renderer : SDLPtr := none
  freeRenderer : Bool := false
  error : Int
deriving DecidableEq

/-- Modelled from the spec: the `Texture` class declaration lives in
render.hpp, which is not under src/.  The fields are pinned by their
uses in src/render.cpp: a `Renderer&` member (modelled as the identity
of the referenced renderer), the `texture` handle and the `freeTexture`
flag. -/
structure Texture where
  renderer : Nat
  texture : SDLPtr := none
  freeTexture : Bool := false
deriving DecidableEq

/-- Source surface.hpp line 26: the handle constructor guards the flag,
`freeSurface(free && surface != NULL)`. -/
def Surface.fromHandle (surface : SDLPtr) (free : Bool) : Surface :=
  { surface := surface, freeSurface := free && surface.isSome }

/-- Source video.hpp line 183: `Window(SDL_Window* window = NULL, bool
free = false) : window(window), freeWindow(free) {}`.  The flag is NOT
guarded by handle non-nullness, and `error` stays uninitialized
(`errInit` stands for its indeterminate value). -/
def Window.fromHandle (window : SDLPtr) (free : Bool) (errInit : Int) : Window :=
  { window := window, freeWindow := free, error := errInit }

/-- Source render.cpp line 14: the handle constructor guards the flag,
`freeRenderer(free && renderer != NULL)`; the initial value of `error`
is whatever render.hpp declares (`errInit`). -/
def Renderer.fromHandle (renderer : SDLPtr) (free : Bool) (errInit : Int) : Renderer :=
  { renderer := renderer, freeRenderer := free && renderer.isSome, error := errInit }

/-- Source render.cpp line 160: the handle constructor guards the flag,
`freeTexture(free && texture != NULL)`. -/
def Texture.fromHandle (rend : Nat) (texture : SDLPtr) (free : Bool) : Texture :=
  { renderer := rend, texture := texture, freeTexture := free && texture.isSome }

/-- Source surface.hpp line 68: `~Surface() { if(freeSurface)
SDL_FreeSurface(surface); }` -- the native calls the destructor makes. -/
def Surface.destructorCalls (s : Surface) : List NativeCall :=
  if s.freeSurface then [NativeCall.freeSurface s.surface] else []

/-- Source video.hpp line 233: `~Window() { if(freeWindow)
SDL_DestroyWindow(window); }`. -/
def Window.destructorCalls (w : Window) : List NativeCall :=
  if w.freeWindow then [NativeCall.destroyWindow w.window] else []

/-- Source render.cpp line 18: `~Renderer() { if (freeRenderer)
SDL_DestroyRenderer(renderer); }`. -/
def Renderer.destructorCalls (r : Renderer) : List NativeCall :=
  if r.freeRenderer then [NativeCall.destroyRenderer r.renderer] else []

/-- Source render.cpp line 164: `~Texture() { if (freeTexture)
SDL_DestroyTexture(texture); }`. -/
def Texture.destructorCalls (t : Texture) : List NativeCall :=
  if t.freeTexture then [NativeCall.destroyTexture t.texture] else []

/-- Source video.hpp line 174: `Window(const Window& wnd) :
Window(wnd.window, false) {}`.  Returns (new object, source after). -/
def Window.copyCtor (wnd : Window) (errInit : Int) : Window × Window :=
  (Window.fromHandle wnd.window false errInit, wnd)

/-- Source video.hpp line 175: `Window(Window&& wnd) : Window(wnd.window,
wnd.freeWindow) { wnd.window = NULL;  wnd.freeWindow = false; }`. -/
def Window.moveCtor (wnd : Window) (errInit : Int) : Window × Window :=
  (Window.fromHandle wnd.window wnd.freeWindow errInit,
   { wnd with window := none, freeWindow := false })

/-- Source render.cpp line 5: `Renderer(const Renderer& r) :
renderer(r.renderer) { }`.  Only the handle is initialized explicitly;
`freeRenderer` takes its render.hpp default (modelled `false`, see the
`Renderer` structure comment) and `error` its indeterminate value. -/
def Renderer.copyCtor (r : Renderer) (errInit : Int) : Renderer × Renderer :=
  ({ renderer := r.renderer, freeRenderer := false, error := errInit }, r)

/-- Source render.cpp line 6: `Renderer(Renderer&& r) :
renderer(r.renderer), freeRenderer(r.freeRenderer) { r.freeRenderer =
false; }` -- member-wise init (no guard), then the source flag clears. -/
def Renderer.moveCtor (r : Renderer) (errInit : Int) : Renderer × Renderer :=
  ({ renderer := r.renderer, freeRenderer := r.freeRenderer, error := errInit },
   { r with freeRenderer := false })

/-- Source render.cpp line 150: `Texture(Texture& txt) :
Texture(txt.renderer, txt.texture, false) {}` -- delegates with
`free = false` through the guarded handle constructor. -/
def Texture.copyCtor (t : Texture) : Texture × Texture :=
  (Texture.fromHandle t.renderer t.texture false, t)

/-- Source render.cpp line 151: `Texture(Texture&& txt) :
Texture(txt.renderer, txt.texture, txt.freeTexture) { txt.freeTexture =
false; }` -- delegates through the GUARDED handle constructor, so the
new flag is `txt.freeTexture && txt.texture != NULL`. -/
def Texture.moveCtor (t : Texture) : Texture × Texture :=
  (Texture.fromHandle t.renderer t.texture t.freeTexture,
   { t with freeTexture := false })

/-- Source video.hpp lines 176-181: `Window& operator=(Window that) {
std::swap(window, that.window); std::swap(freeWindow, that.freeWindow);
return *this; }` -- swaps handle and flag only (`error` is not swapped).
Returns (self after, that after). -/
def Window.assign (self that : Window) : Window × Window :=
  ({ self with window := that.window, freeWindow := that.freeWindow },
   { that with window := self.window, freeWindow := self.freeWindow })

/-- Source render.cpp lines 7-12: swaps `renderer` and `freeRenderer`
only (`error` is not swapped). -/
def Renderer.assign (self that : Renderer) : Renderer × Renderer :=
  ({ self with renderer := that.renderer, freeRenderer := that.freeRenderer },
   { that with renderer := self.renderer, freeRenderer := self.freeRenderer })

/-- Source render.cpp lines 152-158: swaps `renderer`, `texture` and
`freeTexture`. -/
def Texture.assign (self that : Texture) : Texture × Texture :=
  ({ self with
      renderer := that.renderer
      texture := that.texture
      freeTexture := that.freeTexture },
   { that with
      renderer := self.renderer
      texture := self.texture
      freeTexture := self.freeTexture })

/-- The C++ semantics of `a = b` for an lvalue `b`: the by-value
parameter is copy-constructed from `b`, swapped with `a`, and destroyed
at the end of the full expression.  Returns (a after, b after, the
native release calls made when the temporary is destroyed). -/
def Window.assignFromLvalue (a b : Window) (errInit : Int) :
    Window × Window × List NativeCall :=
  let cc := Window.copyCtor b errInit
  let sw := Window.assign a cc.1
  (sw.1, cc.2, sw.2.destructorCalls)

/-- The C++ semantics of `a = b` for an lvalue `b` (Renderer). -/
def Renderer.assignFromLvalue (a b : Renderer) (errInit : Int) :
    Renderer × Renderer × List NativeCall :=
  let cc := Renderer.copyCtor b errInit
  let sw := Renderer.assign a cc.1
  (sw.1, cc.2, sw.2.destructorCalls)

/-- The C++ semantics of `a = b` for an lvalue `b` (Texture). -/
def Texture.assignFromLvalue (a b : Texture) :
    Texture × Texture × List NativeCall :=
  let cc := Texture.copyCtor b
  let sw := Texture.assign a cc.1
  (sw.1, cc.2, sw.2.destructorCalls)

/-- Source render.cpp line 21: `Renderer& FlushError() { error = 0;
return *this; }`. -/
def Renderer.FlushError (r : Renderer) : Renderer :=
  { r with error := 0 }

/-- Source render.cpp line 23: `error |= SDL_RenderSetScale(renderer,
scale.x, scale.y); return *this;` -- `code` is the native return value. -/
def Renderer.SetScale (r : Renderer) (scale : FPoint) (code : Int) : Renderer :=
  { r with error := Int.lor r.error code }

/-- Source render.cpp line 42: `error |= SDL_RenderClear(renderer);`. -/
def Renderer.Clear (r : Renderer) (code : Int) : Renderer :=
  { r with error := Int.lor r.error code }

/-- Source render.cpp line 71: `error |= SDL_RenderFillRect(renderer,
NULL);`. -/
def Renderer.Fill (r : Renderer) (code : Int) : Renderer :=
  { r with error := Int.lor r.error code }

/-- Source render.cpp lines 26-30: by-value GetScale packs the two
floats the native call produces into an FPoint. -/
def Renderer.GetScale (r : Renderer) (native : Flt × Flt) : FPoint :=
  { x := native.1, y := native.2 }

/-- Source render.cpp line 31: reference-out GetScale writes the same
two native floats into the caller's FPoint. -/
def Renderer.GetScaleRef (r : Renderer) (native : Flt × Flt)
    (scale : FPoint) : Renderer × FPoint :=
  (r, { x := native.1, y := native.2 })

/-- Source video.hpp lines 413-417: by-value GetSize packs the two ints
the native call produces into a Point. -/
def Window.GetSize (w : Window) (native : Int × Int) : Point :=
  { x := native.1, y := native.2 }

/-- Source video.hpp line 429: reference-out GetSize writes the same
two native ints into the caller's Point. -/
def Window.GetSizeRef (w : Window) (native : Int × Int)
    (size : Point) : Window × Point :=
  (w, { x := native.1, y := native.2 })

/-- Source render.cpp line 141: by-value IsClipEnabled returns the
native SDL_bool. -/
def Renderer.IsClipEnabled (r : Renderer) (native : Bool) : Bool := native

/-- Source render.cpp line 142: `Renderer& IsClipEnabled(bool& enabled)
{ error |= SDL_RenderIsClipEnabled(renderer); return *this; }` -- the
native SDL_bool (1 when clipping is enabled) is ORed into `error`; the
out-parameter `enabled` is never written, so it keeps its prior value. -/
def Renderer.IsClipEnabledRef (r : Renderer) (native : Bool)
    (enabled : Bool) : Renderer × Bool :=
  ({ r with error := Int.lor r.error (if native then 1 else 0) }, enabled)

/-- Source surface.hpp line 112: `int SaveBMP_RW(SDL_RWops* dst, bool
freedst) { return SDL_SaveBMP_RW(surface, dst, freedst); }` -- returns
the native code to the caller. -/
def Surface.SaveBMP_RW (s : Surface) (code : Int) : Int := code

/-- Source render.cpp line 186: `int Update(void* pixels, int pitch) {
return SDL_UpdateTexture(texture, NULL, pixels, pitch); }`. -/
def Texture.Update (t : Texture) (code : Int) : Int := code

/-- Source video.hpp line 256: `Window& SetDisplayMode(const
Display::Mode& mode) { error = SDL_SetWindowDisplayMode(window, &mode);
return *this; }` -- the code overwrites `error`. -/
def Window.SetDisplayMode (w : Window) (code : Int) : Window :=
  { w with error := code }

/-- Source surface.hpp lines 248-252: `Surface Duplicate() { Surface
newSurface = Surface(SDL_DuplicateSurface(surface)); newSurface.freeSurface
= true; return newSurface; }` -- the flag is set true UNCONDITIONALLY,
even when the native duplicate call returns NULL. -/
def Surface.Duplicate (s : Surface) (native : SDLPtr) : Surface :=
  let newSurface := Surface.fromHandle native false
  { newSurface with freeSurface := true }

/-- Source video.hpp lines 596-601: `Window& GetSurface(Surface&
surface) { surface.~Surface(); surface.surface =
SDL_GetWindowSurface(window); surface.freeSurface = false; return
*this; }`.  Returns (window after, out-surface after, native release
calls of the explicit destructor call). -/
def Window.GetSurfaceRef (w : Window) (native : SDLPtr) (surface : Surface) :
    Window × Surface × List NativeCall :=
  (w, { surface := native, freeSurface := false }, surface.destructorCalls)

/-- Source render.cpp lines 175-180: `surface.~Surface(); int returnVal
= SDL_LockTextureToSurface(texture, NULL, &surface.surface);
surface.freeSurface = surface.surface != NULL; return returnVal;`.
`native` is the handle the native call stores, `code` its return value.
Returns (out-surface after, return value, native release calls). -/
def Texture.LockToSurface (t : Texture) (native : SDLPtr) (code : Int)
    (surface : Surface) : Surface × Int × List NativeCall :=
  ({ surface := native, freeSurface := native.isSome }, code,
   surface.destructorCalls)

/-- Source render.cpp lines 169-174: same as LockToSurface with a rect
argument forwarded to the native call. -/
def Texture.LockRectToSurface (t : Texture) (rect : Rect) (native : SDLPtr)
    (code : Int) (surface : Surface) : Surface × Int × List NativeCall :=
  ({ surface := native, freeSurface := native.isSome }, code,
   surface.destructorCalls)

/-- Source render.cpp lines 248-255: `window.~Window();
renderer.~Renderer(); int returnVal = SDL_CreateWindowAndRenderer(...,
&window.window, &renderer.renderer); window.freeWindow = window.window
!= NULL; renderer.freeRenderer = renderer.renderer != NULL; return
returnVal;`.  Returns (window after, renderer after, return value,
native release calls of the two explicit destructor calls). -/
def CreateWindowAndRenderer (size : Point) (window : Window)
    (renderer : Renderer) (nativeWin nativeRen : SDLPtr) (code : Int) :
    Window × Renderer × Int × List NativeCall :=
  ({ window with window := nativeWin, freeWindow := nativeWin.isSome },
   { renderer with renderer := nativeRen, freeRenderer := nativeRen.isSome },
   code,
   window.destructorCalls ++ renderer.destructorCalls)

/-- Representative Renderer operations whose body ORs the wrapped
call's return code into `error` (render.cpp lines 23, 42, 71), each
paired with the code the native call returned. -/
inductive AccumOp where
  | setScale (scale : FPoint) (code : Int)
  | clear (code : Int)
  | fill (code : Int)
deriving DecidableEq

/-- The native return code an accumulating operation ORs in. -/
def AccumOp.code : AccumOp → Int
  | .setScale _ c => c
  | .clear c => c
  | .fill c => c

/-- Dispatch one accumulating operation to its method model. -/
def Renderer.runAccum (r : Renderer) : AccumOp → Renderer
  | .setScale s c => r.SetScale s c
  | .clear c => r.Clear c
  | .fill c => r.Fill c

/-- Run a sequence of accumulating Renderer operations. -/
def Renderer.runOps (r : Renderer) (ops : List AccumOp) : Renderer :=
  ops.foldl Renderer.runAccum r

/-- Bitwise OR of naturals is zero exactly when both operands are. -/
theorem nat_lor_eq_zero_iff (m n : Nat) : m ||| n = 0 ↔ m = 0 ∧ n = 0 := by
  constructor
  · intro h
    refine ⟨Nat.eq_of_testBit_eq fun i => ?_, Nat.eq_of_testBit_eq fun i => ?_⟩ <;>
    · have hb := congrArg (fun x => Nat.testBit x i) h
      simp only [Nat.testBit_lor, Nat.zero_testBit, Bool.or_eq_false_iff] at hb
      simp [hb.1, hb.2, Nat.zero_testBit]
  · rintro ⟨rfl, rfl⟩
    rfl

/-- Bitwise OR of integers (two's complement) is zero exactly when both
operands are. -/
theorem int_lor_eq_zero_iff (a b : Int) : Int.lor a b = 0 ↔ a = 0 ∧ b = 0 := by
  cases a with
  | ofNat m =>
    cases b with
    | ofNat n =>
      simp [Int.lor, nat_lor_eq_zero_iff, Int.ofNat_eq_zero]
    | negSucc n => simp [Int.lor]
  | negSucc m =>
    cases b with
    | ofNat n => simp [Int.lor]
    | negSucc n => simp [Int.lor]

/-- One accumulating operation ORs its code into the error field. -/
theorem runAccum_error (r : Renderer) (op : AccumOp) :
    (r.runAccum op).error = Int.lor r.error op.code := by
  cases op <;> rfl

/-- A sequence of accumulating operations ends with error 0 exactly when
it started with 0 and every code in the sequence was 0. -/
theorem runOps_error_eq_zero_iff (r : Renderer) (ops : List AccumOp) :
    (r.runOps ops).error = 0 ↔ (r.error = 0 ∧ ∀ op ∈ ops, op.code = 0) := by
  induction ops generalizing r with
  | nil => simp [Renderer.runOps]
  | cons op rest ih =>
    show ((r.runAccum op).runOps rest).error = 0 ↔ _
    rw [ih, runAccum_error, int_lor_eq_zero_iff]
    simp only [List.mem_cons]
    constructor
    · rintro ⟨⟨h1, h2⟩, h3⟩
      exact ⟨h1, fun x hx => hx.elim (fun he => he ▸ h2) (h3 x)⟩
    · rintro ⟨h1, h2⟩
      exact ⟨⟨h1, h2 op (Or.inl rfl)⟩, fun x hx => h2 x (Or.inr hx)⟩

/-- Bitwise difference with zero is the identity. -/
theorem nat_ldiff_zero (n : Nat) : Nat.ldiff n 0 = n :=
  Nat.eq_of_testBit_eq fun i => by
    simp [Nat.testBit_ldiff, Nat.zero_testBit]

/-- ORing a natural into zero stores it unchanged. -/
theorem nat_zero_lor (n : Nat) : 0 ||| n = n :=
  Nat.eq_of_testBit_eq fun i => by
    simp [Nat.testBit_lor, Nat.zero_testBit]

/-- ORing an integer code into a cleared (zero) accumulator stores the
code unchanged. -/
theorem int_zero_lor (a : Int) : Int.lor 0 a = a := by
  cases a with
  | ofNat n =>
    show Int.lor (Int.ofNat 0) (Int.ofNat n) = Int.ofNat n
    simp [Int.lor, nat_zero_lor]
  | negSucc n =>
    show Int.lor (Int.ofNat 0) (Int.negSucc n) = Int.negSucc n
    simp [Int.lor, nat_ldiff_zero]

/-- C2: for every Surface, Window, and Renderer wrapper object, the
destructor performs the native release call on the wrapped handle
exactly when the ownership flag is true, and performs no native call at
all when the flag is false. -/
theorem destructor_releases_iff_owned :
    (∀ s : Surface,
        (s.destructorCalls = [NativeCall.freeSurface s.surface] ↔ s.freeSurface = true)
      ∧ (s.destructorCalls = [] ↔ s.freeSurface = false))
  ∧ (∀ w : Window,
        (w.destructorCalls = [NativeCall.destroyWindow w.window] ↔ w.freeWindow = true)
      ∧ (w.destructorCalls = [] ↔ w.freeWindow = false))
  ∧ (∀ r : Renderer,
        (r.destructorCalls = [NativeCall.destroyRenderer r.renderer] ↔ r.freeRenderer = true)
      ∧ (r.destructorCalls = [] ↔ r.freeRenderer = false)) := by
  refine ⟨fun s => ?_, fun w => ?_, fun r => ?_⟩
  · cases h : s.freeSurface <;> simp [Surface.destructorCalls, h]
  · cases h : w.freeWindow <;> simp [Window.destructorCalls, h]
  · cases h : r.freeRenderer <;> simp [Renderer.destructorCalls, h]

/-- C6: copy construction yields a non-owning alias: for Window,
Renderer, and Texture the copy holds the source's handle with ownership
flag false, and the source's state is unchanged. -/
theorem copy_ctor_nonowning_alias :
    (∀ (w : Window) (e : Int),
        (Window.copyCtor w e).1.window = w.window
      ∧ (Window.copyCtor w e).1.freeWindow = false
      ∧ (Window.copyCtor w e).2 = w)
  ∧ (∀ (r : Renderer) (e : Int),
        (Renderer.copyCtor r e).1.renderer = r.renderer
      ∧ (Renderer.copyCtor r e).1.freeRenderer = false
      ∧ (Renderer.copyCtor r e).2 = r)
  ∧ (∀ t : Texture,
        (Texture.copyCtor t).1.texture = t.texture
      ∧ (Texture.copyCtor t).1.renderer = t.renderer
      ∧ (Texture.copyCtor t).1.freeTexture = false
      ∧ (Texture.copyCtor t).2 = t) := by
  refine ⟨fun w e => ⟨rfl, rfl, rfl⟩, fun r e => ⟨rfl, rfl, rfl⟩,
    fun t => ⟨rfl, rfl, ?_, rfl⟩⟩
  simp [Texture.copyCtor, Texture.fromHandle]

/-- C4 counterexample: moving from a Texture whose ownership flag is
true but whose handle is NULL (a state Renderer::GetTarget(Texture&)
can produce, since it overwrites the handle without updating the flag)
yields a new wrapper whose flag is false -- not the source's former
flag, because the Texture move constructor delegates through the
guarded handle constructor. -/
theorem texture_move_flag_counterexample :
    ((Texture.moveCtor { renderer := 0, texture := none, freeTexture := true }).1.freeTexture = false)
  ∧ (({ renderer := 0, texture := none, freeTexture := true } : Texture).freeTexture = true) := by
  decide

/-- C4 (amended): move construction transfers ownership.  Window and
Renderer move constructors give the new wrapper the source's handle and
former flag and clear the source's flag.  The Texture move constructor
gives the new wrapper the source's handle and the former flag guarded
by handle non-nullness -- equal to the former flag whenever the handle
is non-null -- and clears the source's flag.  In all cases the
moved-from object's destructor performs no release, so the handle is
released at most once across the two objects. -/
theorem move_ctor_transfers_ownership :
    (∀ (w : Window) (e : Int),
        (Window.moveCtor w e).1.window = w.window
      ∧ (Window.moveCtor w e).1.freeWindow = w.freeWindow
      ∧ (Window.moveCtor w e).2.freeWindow = false
      ∧ (Window.moveCtor w e).2.destructorCalls = [])
  ∧ (∀ (r : Renderer) (e : Int),
        (Renderer.moveCtor r e).1.renderer = r.renderer
      ∧ (Renderer.moveCtor r e).1.freeRenderer = r.freeRenderer
      ∧ (Renderer.moveCtor r e).2.freeRenderer = false
      ∧ (Renderer.moveCtor r e).2.destructorCalls = [])
  ∧ (∀ t : Texture,
        (Texture.moveCtor t).1.texture = t.texture
      ∧ (Texture.moveCtor t).1.freeTexture = (t.freeTexture && t.texture.isSome)
      ∧ (t.texture.isSome = true → (Texture.moveCtor t).1.freeTexture = t.freeTexture)
      ∧ (Texture.moveCtor t).2.freeTexture = false
      ∧ (Texture.moveCtor t).2.destructorCalls = []) := by
  refine ⟨fun w e => ⟨rfl, rfl, rfl, rfl⟩, fun r e => ⟨rfl, rfl, rfl, rfl⟩,
    fun t => ⟨rfl, rfl, fun h => ?_, rfl, rfl⟩⟩
  show (t.freeTexture && t.texture.isSome) = t.freeTexture
  rw [h, Bool.and_true]

/-- C4 witness: the amended move theorem applied to an owning Texture
with a non-null handle: the new wrapper keeps the flag true. -/
theorem move_ctor_transfers_ownership_witness :
    (Texture.moveCtor { renderer := 1, texture := some 5, freeTexture := true }).1.freeTexture
      = ({ renderer := 1, texture := some 5, freeTexture := true } : Texture).freeTexture :=
  (move_ctor_transfers_ownership.2.2
    { renderer := 1, texture := some 5, freeTexture := true }).2.2.1 rfl

/-- C3 counterexample: the Window handle constructor copies the flag
unguarded and Surface::Duplicate sets it unconditionally, so both
produce wrappers whose ownership flag is true while the handle is NULL,
violating the claimed invariant. -/
theorem ownership_invariant_counterexample :
    ((Window.fromHandle none true 0).freeWindow = true)
  ∧ ((Window.fromHandle none true 0).window = none)
  ∧ ((Surface.Duplicate { surface := some 3, freeSurface := true } none).freeSurface = true)
  ∧ ((Surface.Duplicate { surface := some 3, freeSurface := true } none).surface = none) := by
  decide

/-- C3 (amended): the flag-true-implies-non-null-handle invariant is
established by the guarded handle constructors of Surface, Renderer and
Texture (flag computed as free AND handle non-null), and by the flag
writes in Texture::LockToSurface, Window::GetSurface(Surface&) and
CreateWindowAndRenderer; it is NOT established by the Window handle
constructor (flag = free regardless of the handle) nor by
Surface::Duplicate (flag set true unconditionally). -/
theorem ownership_flag_guard :
    (∀ (p : SDLPtr) (free : Bool),
        (Surface.fromHandle p free).freeSurface = true → p.isSome = true)
  ∧ (∀ (p : SDLPtr) (free : Bool) (e : Int),
        (Renderer.fromHandle p free e).freeRenderer = true → p.isSome = true)
  ∧ (∀ (rd : Nat) (p : SDLPtr) (free : Bool),
        (Texture.fromHandle rd p free).freeTexture = true → p.isSome = true)
  ∧ (∀ (t : Texture) (native : SDLPtr) (code : Int) (s : Surface),
        (Texture.LockToSurface t native code s).1.freeSurface = true → native.isSome = true)
  ∧ (∀ (w : Window) (native : SDLPtr) (s : Surface),
        (Window.GetSurfaceRef w native s).2.1.freeSurface = false)
  ∧ (∀ (size : Point) (w : Window) (r : Renderer) (nw nr : SDLPtr) (code : Int),
        ((CreateWindowAndRenderer size w r nw nr code).1.freeWindow = true → nw.isSome = true)
      ∧ ((CreateWindowAndRenderer size w r nw nr code).2.1.freeRenderer = true → nr.isSome = true)) := by
  refine ⟨fun p free h => ?_, fun p free e h => ?_, fun rd p free h => ?_,
    fun t native code s h => h, fun w native s => rfl,
    fun size w r nw nr code => ⟨fun h => h, fun h => h⟩⟩ <;>
  · simp only [Surface.fromHandle, Renderer.fromHandle, Texture.fromHandle,
      Bool.and_eq_true] at h
    exact h.2

/-- C3 witness: the guarded Surface constructor applied to a concrete
non-null handle. -/
theorem ownership_flag_guard_witness :
    (some 2 : SDLPtr).isSome = true ∧ (Surface.fromHandle (some 2) true).freeSurface = true :=
  ⟨ownership_flag_guard.1 (some 2) true (by decide), by decide⟩

/-- C1 counterexample: Renderer::SetScale does not hand the native
return code back unchanged: starting from a wrapper whose error
accumulator holds -1, a native call that returns 0 (success) leaves the
caller-visible error at a nonzero value, so the value the caller
receives differs from the native result. -/
theorem setScale_not_passthrough_counterexample :
    (Renderer.SetScale { renderer := some 1, freeRenderer := true, error := -1 }
      { x := 2, y := 2 } 0).error ≠ 0 := by
  decide

/-- C1 (amended): methods that return the native code directly hand it
back unchanged (Surface::SaveBMP_RW, Texture::Update); Window methods
on the error channel overwrite the stored error with the code
(SetDisplayMode), so the caller reads it back unchanged; Renderer
methods on the error channel OR the code into the stored error, so the
caller reads the code back unchanged exactly when the accumulator was 0
beforehand. -/
theorem pass_through_return_codes :
    (∀ (s : Surface) (code : Int), Surface.SaveBMP_RW s code = code)
  ∧ (∀ (t : Texture) (code : Int), Texture.Update t code = code)
  ∧ (∀ (w : Window) (code : Int), (Window.SetDisplayMode w code).error = code)
  ∧ (∀ (r : Renderer) (scale : FPoint) (code : Int),
        ((Renderer.SetScale r scale code).error = Int.lor r.error code)
      ∧ (r.error = 0 → (Renderer.SetScale r scale code).error = code)) := by
  refine ⟨fun s code => rfl, fun t code => rfl, fun w code => rfl,
    fun r scale code => ⟨rfl, fun h => ?_⟩⟩
  show Int.lor r.error code = code
  rw [h, int_zero_lor]

/-- C1 witness: a successful native call on a clean accumulator is
reported to the caller as 0, and a failing one as its code. -/
theorem pass_through_return_codes_witness :
    (Renderer.SetScale { renderer := some 1, freeRenderer := true, error := 0 }
      { x := 2, y := 2 } (-1)).error = -1 :=
  (pass_through_return_codes.2.2.2
    { renderer := some 1, freeRenderer := true, error := 0 }
    { x := 2, y := 2 } (-1)).2 rfl

/-- C5: the Renderer::IsClipEnabled overload pair disagrees: at a state
where the native clip query returns true and the caller's out variable
holds false, the by-value overload returns true while the reference
overload leaves the out-parameter at false -- it ORs the native bool
into the error accumulator instead of assigning it.  The sibling
overload pairs named by the claim do agree: GetScale and GetSize yield
the same values through both overloads. -/
theorem isClipEnabled_overloads_disagree :
    (Renderer.IsClipEnabled { renderer := some 1, freeRenderer := true, error := 0 } true = true)
  ∧ ((Renderer.IsClipEnabledRef { renderer := some 1, freeRenderer := true, error := 0 } true false).2 = false)
  ∧ ((Renderer.IsClipEnabledRef { renderer := some 1, freeRenderer := true, error := 0 } true false).1.error = 1)
  ∧ (∀ (r : Renderer) (native : Flt × Flt) (scale : FPoint),
        Renderer.GetScale r native = (Renderer.GetScaleRef r native scale).2)
  ∧ (∀ (w : Window) (native : Int × Int) (size : Point),
        Window.GetSize w native = (Window.GetSizeRef w native size).2) := by
  refine ⟨rfl, rfl, by decide, fun r native scale => rfl, fun w native size => rfl⟩

/-- C7 counterexample: Renderer::FlushError changes the wrapper's
stored state while leaving both the handle and the ownership flag
unchanged, so the wrapper stores per-object state beyond handle and
flag (the int error accumulator), and a public operation writes it. -/
theorem wrapper_state_counterexample :
    (Renderer.FlushError { renderer := none, freeRenderer := false, error := -1 }
      ≠ { renderer := none, freeRenderer := false, error := -1 })
  ∧ ((Renderer.FlushError { renderer := none, freeRenderer := false, error := -1 }).renderer = none)
  ∧ ((Renderer.FlushError { renderer := none, freeRenderer := false, error := -1 }).freeRenderer = false) := by
  decide

/-- C7 (amended): the per-object state each wrapper adds on top of the
native handle is: only the ownership flag for Surface; the flag plus
the int error accumulator for Window and Renderer; the flag plus the
reference to the owning renderer for Texture.  Each wrapper's state is
exactly these fields (two states agreeing on them are equal). -/
theorem wrapper_state_fields :
    (∀ s1 s2 : Surface, s1.surface = s2.surface → s1.freeSurface = s2.freeSurface → s1 = s2)
  ∧ (∀ w1 w2 : Window, w1.window = w2.window → w1.freeWindow = w2.freeWindow →
        w1.error = w2.error → w1 = w2)
  ∧ (∀ r1 r2 : Renderer, r1.renderer = r2.renderer → r1.freeRenderer = r2.freeRenderer →
        r1.error = r2.error → r1 = r2)
  ∧ (∀ t1 t2 : Texture, t1.renderer = t2.renderer → t1.texture = t2.texture →
        t1.freeTexture = t2.freeTexture → t1 = t2) := by
  refine ⟨fun s1 s2 h1 h2 => ?_, fun w1 w2 h1 h2 h3 => ?_,
    fun r1 r2 h1 h2 h3 => ?_, fun t1 t2 h1 h2 h3 => ?_⟩
  · cases s1; cases s2; simp_all
  · cases w1; cases w2; simp_all
  · cases r1; cases r2; simp_all
  · cases t1; cases t2; simp_all

/-- C7 witness: the Surface state characterization applied at a
concrete pair of equal states. -/
theorem wrapper_state_fields_witness :
    ({ surface := some 1, freeSurface := true } : Surface)
      = { surface := some 1, freeSurface := true } :=
  wrapper_state_fields.1 { surface := some 1, freeSurface := true }
    { surface := some 1, freeSurface := true } rfl rfl

/-- C8: Renderer failure codes accumulate stickily: after any sequence
of error-accumulating Renderer operations, the error field is 0 exactly
when it was 0 at the start and every wrapped call in the sequence
returned 0 (so once some call fails, the error stays nonzero through
the rest of the sequence), and FlushError resets it to 0. -/
theorem sticky_error_accumulation :
    ∀ (r : Renderer) (ops : List AccumOp),
      ((r.runOps ops).error = 0 ↔ (r.error = 0 ∧ ∀ op ∈ ops, op.code = 0))
    ∧ ((r.runOps ops).FlushError.error = 0)
    ∧ (r.FlushError.error = 0) :=
  fun r ops => ⟨runOps_error_eq_zero_iff r ops, rfl, rfl⟩

/-- C9: out-parameter overloads that replace a wrapper object first run
the out-object's destructor (which releases its previously owned
resource exactly when its flag was true) before installing the new
handle, and then set the ownership flag: Window::GetSurface(Surface&)
sets freeSurface to false, while Texture::LockToSurface,
Texture::LockRectToSurface and CreateWindowAndRenderer set the flag
exactly when the newly installed handle is non-null. -/
theorem out_param_replacement :
    (∀ (w : Window) (native : SDLPtr) (s : Surface),
        (Window.GetSurfaceRef w native s).2.1.surface = native
      ∧ (Window.GetSurfaceRef w native s).2.1.freeSurface = false
      ∧ ((NativeCall.freeSurface s.surface ∈ (Window.GetSurfaceRef w native s).2.2)
          ↔ s.freeSurface = true)
      ∧ (Window.GetSurfaceRef w native s).1 = w)
  ∧ (∀ (t : Texture) (native : SDLPtr) (code : Int) (s : Surface),
        (Texture.LockToSurface t native code s).1.surface = native
      ∧ (Texture.LockToSurface t native code s).1.freeSurface = native.isSome
      ∧ (Texture.LockToSurface t native code s).2.1 = code
      ∧ ((NativeCall.freeSurface s.surface ∈ (Texture.LockToSurface t native code s).2.2)
          ↔ s.freeSurface = true))
  ∧ (∀ (t : Texture) (rect : Rect) (native : SDLPtr) (code : Int) (s : Surface),
        (Texture.LockRectToSurface t rect native code s).1.surface = native
      ∧ (Texture.LockRectToSurface t rect native code s).1.freeSurface = native.isSome
      ∧ ((NativeCall.freeSurface s.surface ∈ (Texture.LockRectToSurface t rect native code s).2.2)
          ↔ s.freeSurface = true))
  ∧ (∀ (size : Point) (w : Window) (r : Renderer) (nw nr : SDLPtr) (code : Int),
        (CreateWindowAndRenderer size w r nw nr code).1.window = nw
      ∧ (CreateWindowAndRenderer size w r nw nr code).1.freeWindow = nw.isSome
      ∧ (CreateWindowAndRenderer size w r nw nr code).2.1.renderer = nr
      ∧ (CreateWindowAndRenderer size w r nw nr code).2.1.freeRenderer = nr.isSome
      ∧ ((NativeCall.destroyWindow w.window ∈ (CreateWindowAndRenderer size w r nw nr code).2.2.2)
          ↔ w.freeWindow = true)
      ∧ ((NativeCall.destroyRenderer r.renderer ∈ (CreateWindowAndRenderer size w r nw nr code).2.2.2)
          ↔ r.freeRenderer = true)) := by
  refine ⟨fun w native s => ⟨rfl, rfl, ?_, rfl⟩,
    fun t native code s => ⟨rfl, rfl, rfl, ?_⟩,
    fun t rect native code s => ⟨rfl, rfl, ?_⟩,
    fun size w r nw nr code => ⟨rfl, rfl, rfl, rfl, ?_, ?_⟩⟩
  · cases h : s.freeSurface <;>
      simp [Window.GetSurfaceRef, Surface.destructorCalls, h]
  · cases h : s.freeSurface <;>
      simp [Texture.LockToSurface, Surface.destructorCalls, h]
  · cases h : s.freeSurface <;>
      simp [Texture.LockRectToSurface, Surface.destructorCalls, h]
  · cases hw : w.freeWindow <;> cases hr : r.freeRenderer <;>
      simp [CreateWindowAndRenderer, Window.destructorCalls,
        Renderer.destructorCalls, hw, hr]
  · cases hw : w.freeWindow <;> cases hr : r.freeRenderer <;>
      simp [CreateWindowAndRenderer, Window.destructorCalls,
        Renderer.destructorCalls, hw, hr]

/-- C10: assignment is copy-and-swap.  operator= takes its parameter by
value and swaps handle and ownership flag with it (for Texture also the
renderer reference; Window and Renderer do not swap their error field),
so the target ends up holding the parameter's handle and flag and the
parameter the target's old ones.  Composed with the parameter's
copy-construction from an lvalue source and the temporary's destruction
at the end of the statement: the target ends up with the source's
handle, the source is unchanged, and the target's previously owned
handle is released exactly once (by the temporary's destructor);
self-assignment leaves the object holding its original handle value and
performs at most one release. -/
theorem assignment_copy_and_swap :
    (∀ a that : Window,
        (Window.assign a that).1.window = that.window
      ∧ (Window.assign a that).1.freeWindow = that.freeWindow
      ∧ (Window.assign a that).1.error = a.error
      ∧ (Window.assign a that).2.window = a.window
      ∧ (Window.assign a that).2.freeWindow = a.freeWindow)
  ∧ (∀ a that : Renderer,
        (Renderer.assign a that).1.renderer = that.renderer
      ∧ (Renderer.assign a that).1.freeRenderer = that.freeRenderer
      ∧ (Renderer.assign a that).1.error = a.error
      ∧ (Renderer.assign a that).2.renderer = a.renderer
      ∧ (Renderer.assign a that).2.freeRenderer = a.freeRenderer)
  ∧ (∀ a that : Texture,
        (Texture.assign a that).1.texture = that.texture
      ∧ (Texture.assign a that).1.freeTexture = that.freeTexture
      ∧ (Texture.assign a that).1.renderer = that.renderer
      ∧ (Texture.assign a that).2.texture = a.texture
      ∧ (Texture.assign a that).2.freeTexture = a.freeTexture)
  ∧ (∀ (a b : Window) (e : Int),
        (Window.assignFromLvalue a b e).1.window = b.window
      ∧ (Window.assignFromLvalue a b e).2.1 = b
      ∧ (Window.assignFromLvalue a b e).2.2 =
          (if a.freeWindow then [NativeCall.destroyWindow a.window] else []))
  ∧ (∀ (a b : Renderer) (e : Int),
        (Renderer.assignFromLvalue a b e).1.renderer = b.renderer
      ∧ (Renderer.assignFromLvalue a b e).2.1 = b
      ∧ (Renderer.assignFromLvalue a b e).2.2 =
          (if a.freeRenderer then [NativeCall.destroyRenderer a.renderer] else []))
  ∧ (∀ a b : Texture,
        (Texture.assignFromLvalue a b).1.texture = b.texture
      ∧ (Texture.assignFromLvalue a b).2.1 = b
      ∧ (Texture.assignFromLvalue a b).2.2 =
          (if a.freeTexture then [NativeCall.destroyTexture a.texture] else []))
  ∧ (∀ (a : Window) (e : Int),
        (Window.assignFromLvalue a a e).1.window = a.window
      ∧ (Window.assignFromLvalue a a e).2.2.length ≤ 1) := by
  refine ⟨fun a that => ⟨rfl, rfl, rfl, rfl, rfl⟩,
    fun a that => ⟨rfl, rfl, rfl, rfl, rfl⟩,
    fun a that => ⟨rfl, rfl, rfl, rfl, rfl⟩,
    fun a b e => ⟨rfl, rfl, rfl⟩,
    fun a b e => ⟨rfl, rfl, rfl⟩,
    fun a b => ⟨rfl, rfl, rfl⟩,
    fun a e => ⟨rfl, ?_⟩⟩
  show (if a.freeWindow then [NativeCall.destroyWindow a.window] else []).length ≤ 1
  cases a.freeWindow <;> simp

end SDL
